import Mathlib

/-!
Verification of the usestrix Antigravity client (src/strix/llm/antigravity/)
against its natural-language specification.

The development shallowly embeds the two stateful components:

* the credential pool manager (auth.py, class AccountManager) as pure
  functions over an explicit ManagerState, with the wall clock and the
  token-refresh HTTP call passed in as parameters;
* the streaming request engine (client.py, AntigravityClient.
  stream_generate_content) as a trace-producing function: the outside
  world (one HTTP result per issued request) and the JSON parser are
  oracles, and the engine's observable behaviour is the ordered list of
  engine steps (requests issued, text increments emitted, rate-limit
  rotations requested) together with a final outcome.

Machine integers are modelled as Int (timestamps) and Nat (statuses,
counters); Python lists as List; fallible calls as Option.
-/

set_option maxHeartbeats 1000000

/-! ## Base64url and the state token (auth.py: encode_state / decode_state)

The Python code uses base64.urlsafe_b64encode / urlsafe_b64decode from the
standard library; these are modelled here concretely (RFC 4648 URL-safe
alphabet, '=' padding), because the claim C9 is precisely about the
padding-strip / padding-restore logic written in auth.py lines 39-52.
json.dumps / json.loads are external collaborators and are parameters. -/

/-- The URL-safe base64 alphabet, as a list of characters. -/
def b64alphabet : List Char :=
  "ABCDEFGHIJKLMNOPQRSTUVWXYZabcdefghijklmnopqrstuvwxyz0123456789-_".data

/-- Character for a 6-bit value (model of the stdlib encoder's table). -/
def b64char (n : Nat) : Char := b64alphabet.getD n '?'

/-- Inverse table lookup (model of the stdlib decoder's table). -/
def b64val (c : Char) : Option Nat := b64alphabet.findIdx? (fun x => x = c)

/-- Model of base64.urlsafe_b64encode on a byte list, producing the padded
character string. -/
def b64e : List Nat → List Char
  | [] => []
  | [b1] => [b64char (b1 / 4), b64char (b1 % 4 * 16), '=', '=']
  | [b1, b2] =>
      [b64char (b1 / 4), b64char (b1 % 4 * 16 + b2 / 16), b64char (b2 % 16 * 4), '=']
  | b1 :: b2 :: b3 :: r =>
      b64char (b1 / 4) :: b64char (b1 % 4 * 16 + b2 / 16) ::
      b64char (b2 % 16 * 4 + b3 / 64) :: b64char (b3 % 64) :: b64e r

/-- The encoder output without its trailing '=' padding. -/
def b64eNP : List Nat → List Char
  | [] => []
  | [b1] => [b64char (b1 / 4), b64char (b1 % 4 * 16)]
  | [b1, b2] =>
      [b64char (b1 / 4), b64char (b1 % 4 * 16 + b2 / 16), b64char (b2 % 16 * 4)]
  | b1 :: b2 :: b3 :: r =>
      b64char (b1 / 4) :: b64char (b1 % 4 * 16 + b2 / 16) ::
      b64char (b2 % 16 * 4 + b3 / 64) :: b64char (b3 % 64) :: b64eNP r

/-- Number of '=' padding characters the encoder appends. -/
def padLen : List Nat → Nat
  | [] => 0
  | [_] => 2
  | [_, _] => 1
  | _ :: _ :: _ :: r => padLen r

/-- Model of base64.urlsafe_b64decode on a well-formed padded string;
none models the binascii error on malformed input. -/
def b64d : List Char → Option (List Nat)
  | [] => some []
  | c1 :: c2 :: c3 :: c4 :: rest =>
    match b64val c1, b64val c2 with
    | some s1, some s2 =>
      if c3 = '=' ∧ c4 = '=' ∧ rest = [] then
        some [s1 * 4 + s2 / 16]
      else
        match b64val c3 with
        | some s3 =>
          if c4 = '=' ∧ rest = [] then
            some [s1 * 4 + s2 / 16, s2 % 16 * 16 + s3 / 4]
          else
            match b64val c4, b64d rest with
            | some s4, some bs =>
                some ((s1 * 4 + s2 / 16) :: (s2 % 16 * 16 + s3 / 4) ::
                      (s3 % 4 * 64 + s4) :: bs)
            | _, _ => none
        | none => none
    | _, _ => none
  | _ => none

/-- Python str.rstrip applied with the single character '=' (auth.py line 42:
.rstrip of the encoder output). -/
def rstripEq (s : List Char) : List Char :=
  (s.reverse.dropWhile (fun c => c == '=')).reverse

/-- auth.py lines 48-50: padding = 4 - (len(state) % 4); if padding != 4:
state += padding copies of '='. -/
def restorePad (s : List Char) : List Char :=
  let padding := 4 - s.length % 4
  if padding ≠ 4 then s ++ List.replicate padding '=' else s

/-- auth.py encode_state: json.dumps (the dumps parameter, an external
collaborator producing the UTF-8 byte list), urlsafe_b64encode, strip '='. -/
def encode_state {α : Type} (dumps : α → List Nat) (p : α) : List Char :=
  rstripEq (b64e (dumps p))

/-- auth.py decode_state: restore padding, urlsafe_b64decode, json.loads
(the loads parameter; none models a raised exception). -/
def decode_state {α : Type} (loads : List Nat → Option α) (s : List Char) : Option α :=
  match b64d (restorePad s) with
  | some bytes => loads bytes
  | none => none

/-! ## JSON values and the SSE line parser (client.py lines 125-157)

json.loads itself is the stdlib and stays an oracle of type
List Char → Option Json; everything after it (the dictionary probing,
Python truthiness, indexing) is translated from the source. -/

/-- JSON values as produced by json.loads. -/
inductive Json where
  | null : Json
  | bool (b : Bool) : Json
  | num (n : Int) : Json
  | str (s : String) : Json
  | arr (items : List Json) : Json
  | obj (fields : List (String × Json)) : Json

/-- Key lookup in an object's field list (keys of a parsed JSON object are
distinct, so first-match lookup models the Python dict). -/
def jsonLookup : List (String × Json) → String → Option Json
  | [], _ => none
  | (k, v) :: rest, key => if k = key then some v else jsonLookup rest key

/-- Python x.get(key, default): some value when x is a dict, none modelling
the AttributeError raised when x is not a dict. -/
def asObjGet (j : Json) (k : String) (d : Json) : Option Json :=
  match j with
  | Json.obj fields => some ((jsonLookup fields k).getD d)
  | _ => none

/-- Python truthiness of a JSON value. -/
def pyTruthy : Json → Bool
  | Json.null => false
  | Json.bool b => b
  | Json.num n => n != 0
  | Json.str s => s != ""
  | Json.arr items => !items.isEmpty
  | Json.obj fields => !fields.isEmpty

/-- Python x[0] on a JSON value: some for a nonempty list (first element) or
a nonempty string (first character); none models the raised
IndexError/KeyError/TypeError otherwise. -/
def pyIndex0 : Json → Option Json
  | Json.arr (x :: _) => some x
  | Json.str s =>
      match s.data with
      | c :: _ => some (Json.str (String.mk [c]))
      | [] => none
  | _ => none

/-- client.py lines 134-150: unwrap the optional response envelope, take
candidates[0].content.parts[0].text, and emit it when truthy.  A returned
none means either no yield or an exception swallowed by the per-line
except-pass; both skip the line without aborting the stream. -/
def extractText (data : Json) : Option Json :=
  match asObjGet data "response" data with
  | none => none
  | some actual =>
    match asObjGet actual "candidates" (Json.arr []) with
    | none => none
    | some candidates =>
      if pyTruthy candidates then
        match pyIndex0 candidates with
        | none => none
        | some c0 =>
          match asObjGet c0 "content" (Json.obj []) with
          | none => none
          | some content =>
            match asObjGet content "parts" (Json.arr []) with
            | none => none
            | some parts =>
              if pyTruthy parts then
                match pyIndex0 parts with
                | none => none
                | some p0 =>
                  match asObjGet p0 "text" (Json.str "") with
                  | none => none
                  | some text => if pyTruthy text then some text else none
              else none
      else none

/-- Python whitespace for str.strip. -/
def pyIsSpace (c : Char) : Bool :=
  c = ' ' || c = '\t' || c = '\n' || c = '\r' || c = '\x0b' || c = '\x0c'

/-- Python str.strip. -/
def pyStrip (s : List Char) : List Char :=
  ((s.dropWhile pyIsSpace).reverse.dropWhile pyIsSpace).reverse

/-- client.py lines 126-133: skip empty lines and lines without the data:
marker, strip the payload, parse it, and run the candidate unwrapping. -/
def processLine (jsonLoads : List Char → Option Json) (line : List Char) : Option Json :=
  if line.isEmpty then none
  else if "data:".data.isPrefixOf line then
    let jsonStr := pyStrip (line.drop 5)
    if jsonStr.isEmpty then none
    else
      match jsonLoads jsonStr with
      | some data => extractText data
      | none => none
  else none

/-! ## The streaming request engine (client.py: stream_generate_content) -/

/-- One unit delivered by response.aiter_lines: either a decoded line or a
transport exception raised mid-iteration (nothing after it is reachable). -/
inductive StreamEvent where
  | line (content : List Char) : StreamEvent
  | transportError (msg : String) : StreamEvent

/-- What the world answers to one issued streaming POST. -/
inductive HttpResult where
  | connectError (msg : String) : HttpResult
  | response (status : Nat) (retryAfter : Option (List Char)) (body : List StreamEvent) : HttpResult

/-- Observable steps of one engine invocation, in order: a request issued to
an endpoint (attempt number, endpoint index), a yielded text increment, or a
mark_rate_limited call on the pool. -/
inductive EngineStep where
  | request (attempt : Nat) (endpointIdx : Nat) : EngineStep
  | emit (content : Json) : EngineStep
  | rateLimited : EngineStep

/-- How one account attempt's endpoint loop ended. -/
inductive AttemptResult where
  | success : AttemptResult
  | brokeRateLimited : AttemptResult
  | endpointsExhausted : AttemptResult

/-- How the whole invocation ended. -/
inductive Outcome where
  | finished : Outcome
  | raisedUnpack : Outcome
  | raisedNoToken : Outcome
  | raisedExhausted (lastError : Option String) : Outcome

/-- Accumulate a 429 body's decimal digits; models int() on a digit string. -/
def digitsValAux (acc : Nat) : List Char → Option Nat
  | [] => some acc
  | c :: rest =>
      if c.isDigit then digitsValAux (acc * 10 + (c.toNat - 48)) rest else none

/-- Model of Python int(str): optional surrounding whitespace, optional
sign, a nonempty digit run; none models the raised ValueError. -/
def pyIntParse (s : List Char) : Option Int :=
  match pyStrip s with
  | [] => none
  | '-' :: rest =>
      match rest with
      | [] => none
      | _ => (digitsValAux 0 rest).map (fun n => -(n : Int))
  | '+' :: rest =>
      match rest with
      | [] => none
      | _ => (digitsValAux 0 rest).map (fun n => (n : Int))
  | t => (digitsValAux 0 t).map (fun n => (n : Int))

/-- client.py line 114: int(response.headers.get("Retry-After", 1)) — an
absent header yields the int default 1; a present header goes through
int(), whose failure (none) is a raised ValueError. -/
def pyIntOpt : Option (List Char) → Option Int
  | none => some 1
  | some s => pyIntParse s

/-- The generation URL for an endpoint (client.py line 109). -/
def genUrl (ep : String) : String := ep ++ "/v1internal:streamGenerateContent?alt=sse"

/-- client.py line 120 f-string. -/
def serverErrorMsg (st : Nat) (ep : String) : String :=
  "Server error (" ++ toString st ++ ") on " ++ ep

/-- client.py line 116 f-string. -/
def rateLimitMsg (ep : String) : String := "Rate limit (429) on " ++ ep

/-- Model of str(e) for the HTTPStatusError raised by raise_for_status on a
non-2xx response (an httpx-internal message; only its presence matters). -/
def statusErrorMsg (st : Nat) (ep : String) : String :=
  "HTTP status error " ++ toString st ++ " for url " ++ genUrl ep

/-- Model of str(e) for the ValueError raised by int() on a non-numeric
Retry-After header. -/
def valueErrorStr (s : List Char) : String :=
  "invalid literal for int() with base 10: " ++ String.mk s

/-- The fixed priority-ordered fallback endpoint list (constants.py). -/
def CODE_ASSIST_ENDPOINT_FALLBACKS : List String :=
  ["https://daily-cloudcode-pa.sandbox.googleapis.com",
   "https://autopush-cloudcode-pa.sandbox.googleapis.com",
   "https://cloudcode-pa.googleapis.com"]

/-- client.py lines 125-157: consume the body events of an opened 2xx
stream; returns the emitted increments in order, and some message when a
transport error cut the iteration (the events after it are unreachable). -/
def processBody (jsonLoads : List Char → Option Json) :
    List StreamEvent → List Json × Option String
  | [] => ([], none)
  | StreamEvent.line l :: rest =>
      let r := processBody jsonLoads rest
      match processLine jsonLoads l with
      | some j => (j :: r.1, r.2)
      | none => r
  | StreamEvent.transportError m :: _ => ([], some m)

/-- client.py lines 108-162: the per-attempt endpoint loop.  Arguments after
the endpoint list: current endpoint index, number of requests issued so far
(indexing the world oracle), and last_error.  Every branch of the source's
try/except is represented: 429 with a parseable header rotates and breaks;
429 with an unparseable header is a ValueError caught by the except, hence
continue; status 500 and above continues; any other non-2xx raises in
raise_for_status, is caught by the same except, hence continues; a 2xx
streams the body, and a mid-stream transport error is caught and continues;
a completed stream returns. -/
def runEndpoints (jsonLoads : List Char → Option Json) (world : Nat → HttpResult)
    (attempt : Nat) :
    List String → Nat → Nat → Option String →
    List EngineStep × AttemptResult × Nat × Option String
  | [], _idx, reqCount, lastError =>
      ([], AttemptResult.endpointsExhausted, reqCount, lastError)
  | ep :: rest, idx, reqCount, lastError =>
    let step := EngineStep.request attempt idx
    match world reqCount with
    | HttpResult.connectError m =>
        let r := runEndpoints jsonLoads world attempt rest (idx + 1) (reqCount + 1) (some m)
        (step :: r.1, r.2)
    | HttpResult.response st hdr body =>
        if st = 429 then
          match pyIntOpt hdr with
          | some _ =>
              ([step, EngineStep.rateLimited], AttemptResult.brokeRateLimited,
               reqCount + 1, some (rateLimitMsg ep))
          | none =>
              let r := runEndpoints jsonLoads world attempt rest (idx + 1) (reqCount + 1)
                (some (valueErrorStr (hdr.getD [])))
              (step :: r.1, r.2)
        else if 500 ≤ st then
          let r := runEndpoints jsonLoads world attempt rest (idx + 1) (reqCount + 1)
            (some (serverErrorMsg st ep))
          (step :: r.1, r.2)
        else if ¬ (200 ≤ st ∧ st < 300) then
          let r := runEndpoints jsonLoads world attempt rest (idx + 1) (reqCount + 1)
            (some (statusErrorMsg st ep))
          (step :: r.1, r.2)
        else
          let pb := processBody jsonLoads body
          match pb.2 with
          | none =>
              (step :: pb.1.map EngineStep.emit, AttemptResult.success,
               reqCount + 1, lastError)
          | some m =>
              let r := runEndpoints jsonLoads world attempt rest (idx + 1) (reqCount + 1)
                (some m)
              (step :: (pb.1.map EngineStep.emit ++ r.1), r.2)

/-- Oracles of one engine invocation: the result of the k-th
get_valid_token call, the world's answer to the i-th issued request, and
json.loads. -/
structure EngineConfig where
  tokenOracle : Nat → Option (String × String)
  world : Nat → HttpResult
  jsonLoads : List Char → Option Json

/-- client.py lines 81-168: the retry loop.  Fuel is the remaining attempt
budget; then attempts completed so far, requests issued so far, last_error.
A none from get_valid_token is the unpacking TypeError of line 83 (the
token, project_id = ... of a None return); an empty token string reaches
the explicit raise of line 86. -/
def runLoop (cfg : EngineConfig) :
    Nat → Nat → Nat → Option String → List EngineStep × Outcome
  | 0, _attemptsDone, _reqCount, lastError => ([], Outcome.raisedExhausted lastError)
  | fuel + 1, attemptsDone, reqCount, lastError =>
    match cfg.tokenOracle attemptsDone with
    | none => ([], Outcome.raisedUnpack)
    | some (token, _project) =>
      if token = "" then ([], Outcome.raisedNoToken)
      else
        let r := runEndpoints cfg.jsonLoads cfg.world (attemptsDone + 1)
          CODE_ASSIST_ENDPOINT_FALLBACKS 0 reqCount lastError
        match r.2.1 with
        | AttemptResult.success => (r.1, Outcome.finished)
        | AttemptResult.brokeRateLimited =>
            let nxt := runLoop cfg fuel (attemptsDone + 1) r.2.2.1 r.2.2.2
            (r.1 ++ nxt.1, nxt.2)
        | AttemptResult.endpointsExhausted =>
            let nxt := runLoop cfg fuel (attemptsDone + 1) r.2.2.1 r.2.2.2
            (r.1 ++ nxt.1, nxt.2)

/-- client.py lines 76-168: max_retries = 3 * len(accounts), captured once
at invocation (nAccounts), then the while loop. -/
def streamGenerate (cfg : EngineConfig) (nAccounts : Nat) : List EngineStep × Outcome :=
  runLoop cfg (3 * nAccounts) 0 0 none

/-! ## The credential pool manager (auth.py: class AccountManager) -/

/-- One stored account record (the fields the modelled operations read). -/
structure Account where
  refreshToken : String
  access : String
  expires : Int
  projectId : String
  deriving DecidableEq

/-- Pool state: the in-memory account list and cursor, plus the backing
file modelled as the history of written snapshots (head = latest write). -/
structure ManagerState where
  accounts : List Account
  activeIndex : Int
  file : List (List Account × Int)

/-- Python list indexing semantics (negative indices wrap; out of range is
none, modelling the raised IndexError). -/
def pyListGet {α : Type} (l : List α) (i : Int) : Option α :=
  let j : Int := if i < 0 then (l.length : Int) + i else i
  if 0 ≤ j then l.get? j.toNat else none

/-- In-place element replacement at a Python index (models mutating the
dict object stored at that position). -/
def pyListSet {α : Type} (l : List α) (i : Int) (a : α) : List α :=
  let j : Int := if i < 0 then (l.length : Int) + i else i
  if 0 ≤ j then l.set j.toNat a else l

/-- auth.py save: synchronous full overwrite of the backing file. -/
def saveState (s : ManagerState) : ManagerState :=
  { s with file := (s.accounts, s.activeIndex) :: s.file }

/-- What the constructor finds on disk. -/
inductive LoadSrc where
  | missing : LoadSrc
  | corrupt : LoadSrc
  | good (accounts : List Account) (activeIndex : Int) : LoadSrc

/-- auth.py lines 289-302: __init__ plus load.  A missing file keeps the
initial empty state; a parse failure resets accounts to [] (the cursor
keeps its initial 0); otherwise both fields are taken from the file as-is —
note there is no clamping here. -/
def loadState : LoadSrc → ManagerState
  | LoadSrc.missing => ⟨[], 0, []⟩
  | LoadSrc.corrupt => ⟨[], 0, []⟩
  | LoadSrc.good accounts activeIndex => ⟨accounts, activeIndex, []⟩

/-- auth.py lines 317-322: get_current_account, with the lazy clamp of a
stale cursor to 0 before indexing. -/
def get_current_account (s : ManagerState) : ManagerState × Option Account :=
  if s.accounts = [] then (s, none)
  else if (s.accounts.length : Int) ≤ s.activeIndex then
    ({ s with activeIndex := 0 }, pyListGet s.accounts 0)
  else (s, pyListGet s.accounts s.activeIndex)

/-- auth.py lines 324-329: rotate_account. -/
def rotate_account (s : ManagerState) : ManagerState :=
  if s.accounts = [] then s
  else saveState { s with activeIndex := (s.activeIndex + 1) % (s.accounts.length : Int) }

/-- auth.py lines 353-356: mark_rate_limited discards the retry-after value
and just rotates. -/
def mark_rate_limited (_retryAfter : Int) (s : ManagerState) : ManagerState :=
  rotate_account s

/-- auth.py lines 331-351: get_valid_token.  nowCheck and nowUpd are the two
time.time() reads (lines 338 and 344); refreshO is refresh_access_token
(none models its failure path).  The third component counts the refresh
calls made (0 or 1).  A none result models the Python return None. -/
def get_valid_token (nowCheck nowUpd : Int) (refreshO : String → Option (String × Int))
    (s : ManagerState) : ManagerState × Option (String × String) × Nat :=
  match get_current_account s with
  | (s1, none) => (s1, none, 0)
  | (s1, some account) =>
    if account.expires - 60 ≤ nowCheck then
      match refreshO account.refreshToken with
      | some (newAccess, expiresIn) =>
        let acc2 := { account with access := newAccess, expires := nowUpd + expiresIn }
        let s2 := { s1 with accounts := pyListSet s1.accounts s1.activeIndex acc2 }
        (saveState s2, some (acc2.access, acc2.projectId), 1)
      | none => (s1, none, 1)
    else (s1, some (account.access, account.projectId), 0)

/-! ## Concrete scenario material shared by the claim theorems -/

/-- A parsed SSE event whose single candidate carries one text part. -/
def textEventJson (t : String) : Json :=
  Json.obj [("candidates",
    Json.arr [Json.obj [("content",
      Json.obj [("parts",
        Json.arr [Json.obj [("text", Json.str t)]])])]])]

/-- A concrete json.loads oracle for the scenarios: the payload tokens e1
and e2 parse to text events, everything else fails to parse. -/
def jpW : List Char → Option Json := fun s =>
  if s = "e1".data then some (textEventJson "He")
  else if s = "e2".data then some (textEventJson "llo")
  else none

/-- A well-formed SSE data line carrying payload e1. -/
def lineE1 : List Char := "data: e1".data

/-- A well-formed SSE data line carrying payload e2. -/
def lineE2 : List Char := "data: e2".data

/-- A token oracle that always authenticates. -/
def goodTok : Nat → Option (String × String) := fun _ => some ("tok", "proj")

/-- World for the C1 scenario: the first request opens a 2xx stream that
yields one text increment and then dies with a transport error; every later
request opens a clean 2xx stream with the same single increment. -/
def worldC1 : Nat → HttpResult := fun i =>
  if i = 0 then HttpResult.response 200 none
    [StreamEvent.line lineE1, StreamEvent.transportError "connection dropped"]
  else HttpResult.response 200 none [StreamEvent.line lineE1]

/-- World for the C2 scenario: the first request is answered 400, the rest
with a clean 2xx stream. -/
def worldC2 : Nat → HttpResult := fun i =>
  if i = 0 then HttpResult.response 400 none []
  else HttpResult.response 200 none [StreamEvent.line lineE1]

/-- World for the C3 counterexample: every request is answered 429 with the
unparseable Retry-After header value abc. -/
def worldC3 : Nat → HttpResult := fun _ =>
  HttpResult.response 429 (some "abc".data) []

/-- World for the C3 witness: every request is answered 429 with the header
absent. -/
def worldRL : Nat → HttpResult := fun _ => HttpResult.response 429 none []

/-- World where every request is answered HTTP 500. -/
def world500 : Nat → HttpResult := fun _ => HttpResult.response 500 none []

/-- World for the C10 scenario: endpoint A answers 500, endpoint B with a
2xx stream of exactly two text events. -/
def worldC10 : Nat → HttpResult := fun i =>
  if i = 0 then HttpResult.response 500 none []
  else HttpResult.response 200 none [StreamEvent.line lineE1, StreamEvent.line lineE2]

/-- A sample stored account. -/
def accW : Account := ⟨"rt", "ac", 1000, "pj"⟩

/-- The pool state holding just accW with cursor 0 and no writes yet. -/
def poolW : ManagerState := ⟨[accW], 0, []⟩

/-- Formalisation of the commitment property claimed in C1: once some
increment has been emitted, no later step of the trace is a request. -/
def noAttemptAfterEmit (tr : List EngineStep) : Prop :=
  ∀ i j a e v, i < j → tr.get? i = some (EngineStep.emit v) →
    tr.get? j ≠ some (EngineStep.request a e)

/-- The pool state after a successful refresh of account a in state s:
the account's access and expires fields are replaced in place and the
result is persisted (auth.py lines 343-345). -/
def refreshedState (s : ManagerState) (a : Account) (newAccess : String)
    (newExpires : Int) : ManagerState :=
  saveState
    { s with
      accounts :=
        pyListSet s.accounts s.activeIndex
          { a with access := newAccess, expires := newExpires } }

/-! ## Helper lemmas: base64 round trip -/

/-- Induction along the encoder's three-byte chunking. -/
theorem threeChunkInduction {P : List Nat → Prop} (h0 : P []) (h1 : ∀ b, P [b])
    (h2 : ∀ b c, P [b, c]) (h3 : ∀ b c d r, P r → P (b :: c :: d :: r)) :
    ∀ l, P l
  | [] => h0
  | [b] => h1 b
  | [b, c] => h2 b c
  | b :: c :: d :: r => h3 b c d r (threeChunkInduction h0 h1 h2 h3 r)

theorem b64val_b64char : ∀ n, n < 64 → b64val (b64char n) = some n := by decide

theorem b64char_ne_pad (n : Nat) : b64char n ≠ '=' := by
  by_cases h : n < 64
  · exact (by decide : ∀ m, m < 64 → b64char m ≠ '=') n h
  · have hl : b64alphabet.length ≤ n := by
      have h64 : b64alphabet.length = 64 := by decide
      omega
    unfold b64char
    rw [List.getD_eq_default _ _ hl]
    decide

theorem b64e_decomp : ∀ bs, b64e bs = b64eNP bs ++ List.replicate (padLen bs) '=' := by
  intro bs
  induction bs using threeChunkInduction with
  | h0 => rfl
  | h1 b => rfl
  | h2 b c => rfl
  | h3 b c d r ih => simp [b64e, b64eNP, padLen, ih]

theorem b64eNP_mem : ∀ bs (c : Char), c ∈ b64eNP bs → c ≠ '=' := by
  intro bs
  induction bs using threeChunkInduction with
  | h0 => intro c hc; simp [b64eNP] at hc
  | h1 b =>
      intro c hc
      simp [b64eNP] at hc
      rcases hc with h | h <;> (subst h; exact b64char_ne_pad _)
  | h2 b c' =>
      intro c hc
      simp [b64eNP] at hc
      rcases hc with h | h | h <;> (subst h; exact b64char_ne_pad _)
  | h3 b c' d r ih =>
      intro c hc
      simp [b64eNP] at hc
      rcases hc with h | h | h | h | h
      · subst h; exact b64char_ne_pad _
      · subst h; exact b64char_ne_pad _
      · subst h; exact b64char_ne_pad _
      · subst h; exact b64char_ne_pad _
      · exact ih c h

theorem dropWhile_eq_self_of {p : Char → Bool} :
    ∀ l : List Char, (∀ c ∈ l, p c = false) → List.dropWhile p l = l := by
  intro l h
  cases l with
  | nil => rfl
  | cons a t => exact List.dropWhile_cons_of_neg (by simp [h a (by simp)])

theorem rstrip_append_rep (t : List Char) (k : Nat) (h : ∀ c ∈ t, c ≠ '=') :
    rstripEq (t ++ List.replicate k '=') = t := by
  unfold rstripEq
  rw [List.reverse_append, List.reverse_replicate]
  rw [List.dropWhile_append_of_pos (by intro a ha; simp at ha; simp [ha])]
  rw [dropWhile_eq_self_of t.reverse (by
    intro c hc
    have : c ≠ '=' := h c (List.mem_reverse.mp hc)
    simp [this])]
  exact List.reverse_reverse t

theorem restorePad_cons4 (a b c d : Char) (s : List Char) :
    restorePad (a :: b :: c :: d :: s) = a :: b :: c :: d :: restorePad s := by
  unfold restorePad
  simp only [List.length_cons]
  have hm : (s.length + 1 + 1 + 1 + 1) % 4 = s.length % 4 := by omega
  rw [hm]
  split
  · simp
  · rfl

theorem restorePad_b64eNP : ∀ bs, restorePad (b64eNP bs) = b64e bs := by
  intro bs
  induction bs using threeChunkInduction with
  | h0 => rfl
  | h1 b => rfl
  | h2 b c => rfl
  | h3 b c d r ih =>
      show restorePad (_ :: _ :: _ :: _ :: b64eNP r) = b64e (b :: c :: d :: r)
      rw [restorePad_cons4, ih]
      rfl

theorem b64_strip_restore (bs : List Nat) :
    restorePad (rstripEq (b64e bs)) = b64e bs := by
  rw [b64e_decomp bs, rstrip_append_rep _ _ (b64eNP_mem bs), restorePad_b64eNP]
  exact b64e_decomp bs

theorem b64_decode_encode : ∀ bs : List Nat, (∀ b ∈ bs, b < 256) →
    b64d (b64e bs) = some bs := by
  intro bs
  induction bs using threeChunkInduction with
  | h0 => intro _; rfl
  | h1 b =>
      intro h
      have hb : b < 256 := h b (by simp)
      have v1 : b64val (b64char (b / 4)) = some (b / 4) := b64val_b64char _ (by omega)
      have v2 : b64val (b64char (b % 4 * 16)) = some (b % 4 * 16) :=
        b64val_b64char _ (by omega)
      simp [b64e, b64d, v1, v2]
      omega
  | h2 b c =>
      intro h
      have hb : b < 256 := h b (by simp)
      have hc : c < 256 := h c (by simp)
      have v1 : b64val (b64char (b / 4)) = some (b / 4) := b64val_b64char _ (by omega)
      have v2 : b64val (b64char (b % 4 * 16 + c / 16)) = some (b % 4 * 16 + c / 16) :=
        b64val_b64char _ (by omega)
      have v3 : b64val (b64char (c % 16 * 4)) = some (c % 16 * 4) :=
        b64val_b64char _ (by omega)
      simp [b64e, b64d, v1, v2, v3, b64char_ne_pad]
      omega
  | h3 b c d r ih =>
      intro h
      have hb : b < 256 := h b (by simp)
      have hc : c < 256 := h c (by simp)
      have hd : d < 256 := h d (by simp)
      have hr : ∀ x ∈ r, x < 256 := by intro x hx; exact h x (by simp [hx])
      have v1 : b64val (b64char (b / 4)) = some (b / 4) := b64val_b64char _ (by omega)
      have v2 : b64val (b64char (b % 4 * 16 + c / 16)) = some (b % 4 * 16 + c / 16) :=
        b64val_b64char _ (by omega)
      have v3 : b64val (b64char (c % 16 * 4 + d / 64)) = some (c % 16 * 4 + d / 64) :=
        b64val_b64char _ (by omega)
      have v4 : b64val (b64char (d % 64)) = some (d % 64) := b64val_b64char _ (by omega)
      have hrec : b64d (b64e r) = some r := ih hr
      simp [b64e, b64d, v1, v2, v3, v4, hrec, b64char_ne_pad]
      omega

/-! ## Helper lemmas: one endpoint step of the engine -/

theorem runEndpoints_connect {jp : List Char → Option Json} {world : Nat → HttpResult}
    {attempt : Nat} {ep : String} {rest : List String} {idx rc : Nat} {le : Option String}
    {m : String} (hw : world rc = HttpResult.connectError m) :
    runEndpoints jp world attempt (ep :: rest) idx rc le =
      (EngineStep.request attempt idx ::
         (runEndpoints jp world attempt rest (idx + 1) (rc + 1) (some m)).1,
       (runEndpoints jp world attempt rest (idx + 1) (rc + 1) (some m)).2) := by
  simp only [runEndpoints, hw]

theorem runEndpoints_429parse {jp : List Char → Option Json} {world : Nat → HttpResult}
    {attempt : Nat} {ep : String} {rest : List String} {idx rc : Nat} {le : Option String}
    {hdr : Option (List Char)} {body : List StreamEvent} {n : Int}
    (hw : world rc = HttpResult.response 429 hdr body) (hp : pyIntOpt hdr = some n) :
    runEndpoints jp world attempt (ep :: rest) idx rc le =
      ([EngineStep.request attempt idx, EngineStep.rateLimited],
       AttemptResult.brokeRateLimited, rc + 1, some (rateLimitMsg ep)) := by
  simp only [runEndpoints, hw, hp]
  simp

theorem runEndpoints_429bad {jp : List Char → Option Json} {world : Nat → HttpResult}
    {attempt : Nat} {ep : String} {rest : List String} {idx rc : Nat} {le : Option String}
    {hdr : Option (List Char)} {body : List StreamEvent}
    (hw : world rc = HttpResult.response 429 hdr body) (hp : pyIntOpt hdr = none) :
    runEndpoints jp world attempt (ep :: rest) idx rc le =
      (EngineStep.request attempt idx ::
         (runEndpoints jp world attempt rest (idx + 1) (rc + 1)
           (some (valueErrorStr (hdr.getD [])))).1,
       (runEndpoints jp world attempt rest (idx + 1) (rc + 1)
         (some (valueErrorStr (hdr.getD [])))).2) := by
  simp only [runEndpoints, hw, hp]
  simp

theorem runEndpoints_server {jp : List Char → Option Json} {world : Nat → HttpResult}
    {attempt : Nat} {ep : String} {rest : List String} {idx rc : Nat} {le : Option String}
    {st : Nat} {hdr : Option (List Char)} {body : List StreamEvent}
    (hw : world rc = HttpResult.response st hdr body) (hst : 500 ≤ st) :
    runEndpoints jp world attempt (ep :: rest) idx rc le =
      (EngineStep.request attempt idx ::
         (runEndpoints jp world attempt rest (idx + 1) (rc + 1)
           (some (serverErrorMsg st ep))).1,
       (runEndpoints jp world attempt rest (idx + 1) (rc + 1)
         (some (serverErrorMsg st ep))).2) := by
  simp only [runEndpoints, hw]
  rw [if_neg (by omega), if_pos hst]

theorem runEndpoints_client {jp : List Char → Option Json} {world : Nat → HttpResult}
    {attempt : Nat} {ep : String} {rest : List String} {idx rc : Nat} {le : Option String}
    {st : Nat} {hdr : Option (List Char)} {body : List StreamEvent}
    (hw : world rc = HttpResult.response st hdr body)
    (h429 : st ≠ 429) (h5 : st < 500) (h2 : ¬ (200 ≤ st ∧ st < 300)) :
    runEndpoints jp world attempt (ep :: rest) idx rc le =
      (EngineStep.request attempt idx ::
         (runEndpoints jp world attempt rest (idx + 1) (rc + 1)
           (some (statusErrorMsg st ep))).1,
       (runEndpoints jp world attempt rest (idx + 1) (rc + 1)
         (some (statusErrorMsg st ep))).2) := by
  simp only [runEndpoints, hw]
  rw [if_neg h429, if_neg (by omega), if_pos h2]

theorem runEndpoints_2xx_ok {jp : List Char → Option Json} {world : Nat → HttpResult}
    {attempt : Nat} {ep : String} {rest : List String} {idx rc : Nat} {le : Option String}
    {st : Nat} {hdr : Option (List Char)} {body : List StreamEvent} {emits : List Json}
    (hw : world rc = HttpResult.response st hdr body) (h2 : 200 ≤ st ∧ st < 300)
    (hpb : processBody jp body = (emits, none)) :
    runEndpoints jp world attempt (ep :: rest) idx rc le =
      (EngineStep.request attempt idx :: emits.map EngineStep.emit,
       AttemptResult.success, rc + 1, le) := by
  simp only [runEndpoints, hw]
  rw [if_neg (by omega), if_neg (by omega), if_neg (not_not_intro h2)]
  simp only [hpb]

theorem runEndpoints_2xx_err {jp : List Char → Option Json} {world : Nat → HttpResult}
    {attempt : Nat} {ep : String} {rest : List String} {idx rc : Nat} {le : Option String}
    {st : Nat} {hdr : Option (List Char)} {body : List StreamEvent} {emits : List Json}
    {m : String}
    (hw : world rc = HttpResult.response st hdr body) (h2 : 200 ≤ st ∧ st < 300)
    (hpb : processBody jp body = (emits, some m)) :
    runEndpoints jp world attempt (ep :: rest) idx rc le =
      (EngineStep.request attempt idx ::
         (emits.map EngineStep.emit ++
           (runEndpoints jp world attempt rest (idx + 1) (rc + 1) (some m)).1),
       (runEndpoints jp world attempt rest (idx + 1) (rc + 1) (some m)).2) := by
  simp only [runEndpoints, hw]
  rw [if_neg (by omega), if_neg (by omega), if_neg (not_not_intro h2)]
  simp only [hpb]

/-! ## Helper lemmas: one attempt step of the retry loop -/

theorem runLoop_token_none {cfg : EngineConfig} {fuel aDone rc : Nat} {le : Option String}
    (ht : cfg.tokenOracle aDone = none) :
    runLoop cfg (fuel + 1) aDone rc le = ([], Outcome.raisedUnpack) := by
  simp only [runLoop, ht]

theorem runLoop_success {cfg : EngineConfig} {fuel aDone rc : Nat} {le : Option String}
    {t p : String} {tr : List EngineStep} {rc2 : Nat} {le2 : Option String}
    (ht : cfg.tokenOracle aDone = some (t, p)) (hne : ¬ t = "")
    (hr : runEndpoints cfg.jsonLoads cfg.world (aDone + 1)
        CODE_ASSIST_ENDPOINT_FALLBACKS 0 rc le = (tr, AttemptResult.success, rc2, le2)) :
    runLoop cfg (fuel + 1) aDone rc le = (tr, Outcome.finished) := by
  simp only [runLoop, ht, if_neg hne, hr]

theorem runLoop_broke {cfg : EngineConfig} {fuel aDone rc : Nat} {le : Option String}
    {t p : String} {tr : List EngineStep} {rc2 : Nat} {le2 : Option String}
    (ht : cfg.tokenOracle aDone = some (t, p)) (hne : ¬ t = "")
    (hr : runEndpoints cfg.jsonLoads cfg.world (aDone + 1)
        CODE_ASSIST_ENDPOINT_FALLBACKS 0 rc le =
      (tr, AttemptResult.brokeRateLimited, rc2, le2)) :
    runLoop cfg (fuel + 1) aDone rc le =
      (tr ++ (runLoop cfg fuel (aDone + 1) rc2 le2).1,
       (runLoop cfg fuel (aDone + 1) rc2 le2).2) := by
  simp only [runLoop, ht, if_neg hne, hr]

theorem runLoop_exh {cfg : EngineConfig} {fuel aDone rc : Nat} {le : Option String}
    {t p : String} {tr : List EngineStep} {rc2 : Nat} {le2 : Option String}
    (ht : cfg.tokenOracle aDone = some (t, p)) (hne : ¬ t = "")
    (hr : runEndpoints cfg.jsonLoads cfg.world (aDone + 1)
        CODE_ASSIST_ENDPOINT_FALLBACKS 0 rc le =
      (tr, AttemptResult.endpointsExhausted, rc2, le2)) :
    runLoop cfg (fuel + 1) aDone rc le =
      (tr ++ (runLoop cfg fuel (aDone + 1) rc2 le2).1,
       (runLoop cfg fuel (aDone + 1) rc2 le2).2) := by
  simp only [runLoop, ht, if_neg hne, hr]

/-! ## Helper lemmas: the pool manager -/

theorem pyListSet_length {α : Type} (l : List α) (i : Int) (a : α) :
    (pyListSet l i a).length = l.length := by
  simp only [pyListSet]
  split <;> split <;> simp

theorem pyGet_nonneg {α : Type} (l : List α) (i : Int) (h : 0 ≤ i) :
    pyListGet l i = l.get? i.toNat := by
  have hneg : ¬ i < 0 := by omega
  simp only [pyListGet, if_neg hneg, if_pos h]

theorem pyGetSet_self {α : Type} (l : List α) (i : Int) (x : α)
    (h0 : 0 ≤ i) (h1 : i < (l.length : Int)) :
    pyListGet (pyListSet l i x) i = some x := by
  have hneg : ¬ i < 0 := by omega
  simp only [pyListGet, pyListSet, if_neg hneg, if_pos h0]
  exact List.get?_set_eq_of_lt x (by omega)

theorem get_current_in_range (s : ManagerState)
    (h0 : 0 ≤ s.activeIndex) (h1 : s.activeIndex < (s.accounts.length : Int)) :
    get_current_account s = (s, pyListGet s.accounts s.activeIndex) := by
  unfold get_current_account
  have hne : s.accounts ≠ [] := by
    intro h
    rw [h] at h1
    simp at h1
    omega
  rw [if_neg hne, if_neg (by omega)]

theorem gvt_fresh {s : ManagerState} {a : Account}
    (h0 : 0 ≤ s.activeIndex) (h1 : s.activeIndex < (s.accounts.length : Int))
    (ha : pyListGet s.accounts s.activeIndex = some a)
    {nowCheck nowUpd : Int} {refreshO : String → Option (String × Int)}
    (hlt : ¬ a.expires - 60 ≤ nowCheck) :
    get_valid_token nowCheck nowUpd refreshO s = (s, some (a.access, a.projectId), 0) := by
  have hg : get_current_account s = (s, some a) := by
    rw [get_current_in_range s h0 h1, ha]
  simp only [get_valid_token, hg, if_neg hlt]

theorem gvt_refresh {s : ManagerState} {a : Account}
    (h0 : 0 ≤ s.activeIndex) (h1 : s.activeIndex < (s.accounts.length : Int))
    (ha : pyListGet s.accounts s.activeIndex = some a)
    {nowCheck nowUpd : Int} {refreshO : String → Option (String × Int)}
    {newAccess : String} {expiresIn : Int}
    (hdue : a.expires - 60 ≤ nowCheck)
    (hro : refreshO a.refreshToken = some (newAccess, expiresIn)) :
    get_valid_token nowCheck nowUpd refreshO s =
      (refreshedState s a newAccess (nowUpd + expiresIn),
       some (newAccess, a.projectId), 1) := by
  have hg : get_current_account s = (s, some a) := by
    rw [get_current_in_range s h0 h1, ha]
  simp only [get_valid_token, hg, if_pos hdue, hro]
  rfl

theorem gvt_fail {s : ManagerState} {a : Account}
    (h0 : 0 ≤ s.activeIndex) (h1 : s.activeIndex < (s.accounts.length : Int))
    (ha : pyListGet s.accounts s.activeIndex = some a)
    {nowCheck nowUpd : Int} {refreshO : String → Option (String × Int)}
    (hdue : a.expires - 60 ≤ nowCheck) (hro : refreshO a.refreshToken = none) :
    get_valid_token nowCheck nowUpd refreshO s = (s, none, 1) := by
  have hg : get_current_account s = (s, some a) := by
    rw [get_current_in_range s h0 h1, ha]
  simp only [get_valid_token, hg, if_pos hdue, hro]

/-- One all-500 account attempt walks the three fallback endpoints in order,
records the last server error and exhausts the endpoint list. -/
theorem attempt_all500 {jp : List Char → Option Json} {world : Nat → HttpResult}
    (attempt rc : Nat) (le : Option String)
    (hw : ∀ i, ∃ h b, world i = HttpResult.response 500 h b) :
    runEndpoints jp world attempt CODE_ASSIST_ENDPOINT_FALLBACKS 0 rc le =
      ([EngineStep.request attempt 0, EngineStep.request attempt 1, EngineStep.request attempt 2],
       AttemptResult.endpointsExhausted, rc + 3,
       some (serverErrorMsg 500 "https://cloudcode-pa.googleapis.com")) := by
  obtain ⟨h0, b0, e0⟩ := hw rc
  obtain ⟨h1, b1, e1⟩ := hw (rc + 1)
  obtain ⟨h2, b2, e2⟩ := hw (rc + 2)
  have s1 : runEndpoints jp world attempt
      ("https://daily-cloudcode-pa.sandbox.googleapis.com" ::
       "https://autopush-cloudcode-pa.sandbox.googleapis.com" ::
       "https://cloudcode-pa.googleapis.com" :: []) 0 rc le =
      (EngineStep.request attempt 0 ::
         (runEndpoints jp world attempt
           ("https://autopush-cloudcode-pa.sandbox.googleapis.com" ::
            "https://cloudcode-pa.googleapis.com" :: []) 1 (rc + 1)
           (some (serverErrorMsg 500 "https://daily-cloudcode-pa.sandbox.googleapis.com"))).1,
       (runEndpoints jp world attempt
           ("https://autopush-cloudcode-pa.sandbox.googleapis.com" ::
            "https://cloudcode-pa.googleapis.com" :: []) 1 (rc + 1)
           (some (serverErrorMsg 500 "https://daily-cloudcode-pa.sandbox.googleapis.com"))).2) :=
    runEndpoints_server e0 (by omega)
  have s2 : runEndpoints jp world attempt
      ("https://autopush-cloudcode-pa.sandbox.googleapis.com" ::
       "https://cloudcode-pa.googleapis.com" :: []) 1 (rc + 1)
      (some (serverErrorMsg 500 "https://daily-cloudcode-pa.sandbox.googleapis.com")) =
      (EngineStep.request attempt 1 ::
         (runEndpoints jp world attempt
           ("https://cloudcode-pa.googleapis.com" :: []) 2 (rc + 2)
           (some (serverErrorMsg 500 "https://autopush-cloudcode-pa.sandbox.googleapis.com"))).1,
       (runEndpoints jp world attempt
           ("https://cloudcode-pa.googleapis.com" :: []) 2 (rc + 2)
           (some (serverErrorMsg 500 "https://autopush-cloudcode-pa.sandbox.googleapis.com"))).2) :=
    runEndpoints_server e1 (by omega)
  have s3 : runEndpoints jp world attempt
      ("https://cloudcode-pa.googleapis.com" :: []) 2 (rc + 2)
      (some (serverErrorMsg 500 "https://autopush-cloudcode-pa.sandbox.googleapis.com")) =
      (EngineStep.request attempt 2 ::
         (runEndpoints jp world attempt ([] : List String) 3 (rc + 3)
           (some (serverErrorMsg 500 "https://cloudcode-pa.googleapis.com"))).1,
       (runEndpoints jp world attempt ([] : List String) 3 (rc + 3)
           (some (serverErrorMsg 500 "https://cloudcode-pa.googleapis.com"))).2) :=
    runEndpoints_server e2 (by omega)
  show runEndpoints jp world attempt
      ("https://daily-cloudcode-pa.sandbox.googleapis.com" ::
       "https://autopush-cloudcode-pa.sandbox.googleapis.com" ::
       "https://cloudcode-pa.googleapis.com" :: []) 0 rc le = _
  rw [s1, s2, s3]
  rfl

/-! ## Claim C1 -/

/-- Claim C1 counterexample: with endpoint 0 opening a 2xx stream that emits
one increment and then dies with a transport error, the engine does issue a
further endpoint attempt (request 1 1) after the first emit, and re-produces
the already-emitted text — so a mid-stream transport error after emitted
output does not commit the attempt, contrary to the claim. -/
theorem c1_counterexample :
    (streamGenerate ⟨goodTok, worldC1, jpW⟩ 1).1 =
      [EngineStep.request 1 0, EngineStep.emit (Json.str "He"),
       EngineStep.request 1 1, EngineStep.emit (Json.str "He")]
    ∧ ¬ noAttemptAfterEmit (streamGenerate ⟨goodTok, worldC1, jpW⟩ 1).1 :=
  ⟨rfl, fun h => (h 1 2 1 1 (Json.str "He") (by omega) rfl) rfl⟩

/-- Claim C1 (amended): a transport error occurring mid-stream after a 2xx
connection opened is caught by the engine's catch-all like any endpoint
failure: the increments already emitted stay delivered (they precede
everything else in the trace, never retracted), but the engine then
continues with the next endpoint of the fallback list (recording the error
as last_error), so further endpoint and account attempts may re-produce
already-emitted text. -/
theorem c1_theorem {jp : List Char → Option Json} {world : Nat → HttpResult}
    {attempt : Nat} {ep : String} {rest : List String} {idx rc : Nat} {le : Option String}
    {st : Nat} {hdr : Option (List Char)} {body : List StreamEvent} {emits : List Json}
    {m : String}
    (hw : world rc = HttpResult.response st hdr body) (h2 : 200 ≤ st ∧ st < 300)
    (hpb : processBody jp body = (emits, some m)) :
    runEndpoints jp world attempt (ep :: rest) idx rc le =
      (EngineStep.request attempt idx ::
         (emits.map EngineStep.emit ++
           (runEndpoints jp world attempt rest (idx + 1) (rc + 1) (some m)).1),
       (runEndpoints jp world attempt rest (idx + 1) (rc + 1) (some m)).2) :=
  runEndpoints_2xx_err hw h2 hpb

/-- Claim C1 witness: the amended behaviour at the concrete C1 scenario. -/
theorem c1_witness :
    runEndpoints jpW worldC1 1 ("A" :: ["B"]) 0 0 none =
      (EngineStep.request 1 0 ::
         ([Json.str "He"].map EngineStep.emit ++
           (runEndpoints jpW worldC1 1 ["B"] 1 1 (some "connection dropped")).1),
       (runEndpoints jpW worldC1 1 ["B"] 1 1 (some "connection dropped")).2) :=
  c1_theorem rfl (by omega) rfl

/-! ## Claim C2 -/

/-- Claim C2 counterexample: with endpoint 0 answering HTTP 400, the engine
does not raise to the caller; it issues a request to the next endpoint
(request 1 1 is in the trace) and completes normally from there. -/
theorem c2_counterexample :
    streamGenerate ⟨goodTok, worldC2, jpW⟩ 1 =
      ([EngineStep.request 1 0, EngineStep.request 1 1, EngineStep.emit (Json.str "He")],
       Outcome.finished)
    ∧ EngineStep.request 1 1 ∈
        [EngineStep.request 1 0, EngineStep.request 1 1, EngineStep.emit (Json.str "He")] :=
  ⟨rfl, List.Mem.tail _ (List.Mem.head _)⟩

/-- Claim C2 (amended): on a non-2xx status that is neither 429 nor a 5xx,
raise_for_status throws, but the throw is caught by the engine's own
catch-all: the engine records the status error as last_error and continues
to the next endpoint, consuming retry attempts; such a response is never
surfaced directly, only through eventual exhaustion. -/
theorem c2_theorem {jp : List Char → Option Json} {world : Nat → HttpResult}
    {attempt : Nat} {ep : String} {rest : List String} {idx rc : Nat} {le : Option String}
    {st : Nat} {hdr : Option (List Char)} {body : List StreamEvent}
    (hw : world rc = HttpResult.response st hdr body)
    (h429 : st ≠ 429) (h5 : st < 500) (h2 : ¬ (200 ≤ st ∧ st < 300)) :
    runEndpoints jp world attempt (ep :: rest) idx rc le =
      (EngineStep.request attempt idx ::
         (runEndpoints jp world attempt rest (idx + 1) (rc + 1)
           (some (statusErrorMsg st ep))).1,
       (runEndpoints jp world attempt rest (idx + 1) (rc + 1)
         (some (statusErrorMsg st ep))).2) :=
  runEndpoints_client hw h429 h5 h2

/-- Claim C2 witness: the amended behaviour at status 400. -/
theorem c2_witness :
    runEndpoints jpW worldC2 1 ("A" :: ["B"]) 0 0 none =
      (EngineStep.request 1 0 ::
         (runEndpoints jpW worldC2 1 ["B"] 1 1 (some (statusErrorMsg 400 "A"))).1,
       (runEndpoints jpW worldC2 1 ["B"] 1 1 (some (statusErrorMsg 400 "A"))).2) :=
  c2_theorem rfl (by omega) (by omega) (by omega)

/-! ## Claim C3 -/

/-- Claim C3 counterexample: a 429 whose Retry-After header is present but
unparseable (abc) does not default to 1 second: int() raises, the catch-all
treats it as a transport failure, and the engine continues to the next
endpoint without ever calling mark_rate_limited — no rateLimited step
occurs in the whole run. -/
theorem c3_counterexample :
    streamGenerate ⟨goodTok, worldC3, jpW⟩ 1 =
      ([EngineStep.request 1 0, EngineStep.request 1 1, EngineStep.request 1 2,
        EngineStep.request 2 0, EngineStep.request 2 1, EngineStep.request 2 2,
        EngineStep.request 3 0, EngineStep.request 3 1, EngineStep.request 3 2],
       Outcome.raisedExhausted (some (valueErrorStr "abc".data)))
    ∧ EngineStep.rateLimited ∉
        [EngineStep.request 1 0, EngineStep.request 1 1, EngineStep.request 1 2,
         EngineStep.request 2 0, EngineStep.request 2 1, EngineStep.request 2 2,
         EngineStep.request 3 0, EngineStep.request 3 1, EngineStep.request 3 2] :=
  ⟨rfl, by simp⟩

/-- Claim C3 (amended): on a 429 whose Retry-After header is absent
(defaulting to 1) or parses as an integer, the engine calls
mark_rate_limited — which is exactly rotate_account, advancing the cursor
by one modulo the pool size — and breaks out of the endpoint loop; the
retry loop then proceeds to the next account attempt, restarting at
endpoint index 0.  Only an unparseable header (see the counterexample)
escapes this path. -/
theorem c3_theorem :
    (∀ (jp : List Char → Option Json) (world : Nat → HttpResult)
        (attempt : Nat) (ep : String) (rest : List String) (idx rc : Nat)
        (le : Option String) (hdr : Option (List Char)) (body : List StreamEvent) (n : Int),
        world rc = HttpResult.response 429 hdr body →
        pyIntOpt hdr = some n →
        runEndpoints jp world attempt (ep :: rest) idx rc le =
          ([EngineStep.request attempt idx, EngineStep.rateLimited],
           AttemptResult.brokeRateLimited, rc + 1, some (rateLimitMsg ep)))
    ∧ pyIntOpt none = some 1
    ∧ (∀ (retryAfter : Int) (s : ManagerState),
        mark_rate_limited retryAfter s = rotate_account s)
    ∧ (∀ s : ManagerState, s.accounts ≠ [] →
        (rotate_account s).activeIndex = (s.activeIndex + 1) % (s.accounts.length : Int))
    ∧ (∀ (cfg : EngineConfig) (fuel aDone rc : Nat) (le : Option String) (t p : String)
        (tr : List EngineStep) (rc2 : Nat) (le2 : Option String),
        cfg.tokenOracle aDone = some (t, p) → t ≠ "" →
        runEndpoints cfg.jsonLoads cfg.world (aDone + 1)
            CODE_ASSIST_ENDPOINT_FALLBACKS 0 rc le =
          (tr, AttemptResult.brokeRateLimited, rc2, le2) →
        runLoop cfg (fuel + 1) aDone rc le =
          (tr ++ (runLoop cfg fuel (aDone + 1) rc2 le2).1,
           (runLoop cfg fuel (aDone + 1) rc2 le2).2)) := by
  refine ⟨?_, rfl, ?_, ?_, ?_⟩
  · intro jp world attempt ep rest idx rc le hdr body n hw hp
    exact runEndpoints_429parse hw hp
  · intro retryAfter s
    rfl
  · intro s hs
    unfold rotate_account
    rw [if_neg hs]
    rfl
  · intro cfg fuel aDone rc le t p tr rc2 le2 ht hne hr
    exact runLoop_broke ht hne hr

/-- Claim C3 witness: the amended behaviour at a concrete 429 with the
header absent, plus the mark_rate_limited collapse at a concrete state. -/
theorem c3_witness :
    runEndpoints jpW worldRL 1 ("A" :: []) 0 0 none =
      ([EngineStep.request 1 0, EngineStep.rateLimited],
       AttemptResult.brokeRateLimited, 1, some (rateLimitMsg "A"))
    ∧ mark_rate_limited 1 poolW = rotate_account poolW :=
  ⟨c3_theorem.1 jpW worldRL 1 "A" [] 0 0 none none [] 1 rfl rfl,
   c3_theorem.2.2.1 1 poolW⟩

/-! ## Claim C4 -/

/-- Claim C4: the retry budget is 3 times the account count captured once
at invocation (second conjunct), and with a pool of one account whose every
endpoint attempt answers HTTP 500 the engine performs exactly three
attempts — nine requests, attempts 1, 2 and 3 over endpoint indices 0, 1, 2
— and then raises the exhaustion error carrying the last recorded server
error; no fourth attempt occurs. -/
theorem c4_theorem (tokenO : Nat → Option (String × String)) (world : Nat → HttpResult)
    (jp : List Char → Option Json)
    (htok : ∀ k, ∃ t pj, tokenO k = some (t, pj) ∧ t ≠ "")
    (hw : ∀ i, ∃ h b, world i = HttpResult.response 500 h b) :
    streamGenerate ⟨tokenO, world, jp⟩ 1 =
      ([EngineStep.request 1 0, EngineStep.request 1 1, EngineStep.request 1 2,
        EngineStep.request 2 0, EngineStep.request 2 1, EngineStep.request 2 2,
        EngineStep.request 3 0, EngineStep.request 3 1, EngineStep.request 3 2],
       Outcome.raisedExhausted
         (some (serverErrorMsg 500 "https://cloudcode-pa.googleapis.com")))
    ∧ streamGenerate ⟨tokenO, world, jp⟩ 1 = runLoop ⟨tokenO, world, jp⟩ (3 * 1) 0 0 none := by
  obtain ⟨t0, p0, ht0, hn0⟩ := htok 0
  obtain ⟨t1, p1, ht1, hn1⟩ := htok 1
  obtain ⟨t2, p2, ht2, hn2⟩ := htok 2
  have A1 : runEndpoints jp world 1 CODE_ASSIST_ENDPOINT_FALLBACKS 0 0 none =
      ([EngineStep.request 1 0, EngineStep.request 1 1, EngineStep.request 1 2],
       AttemptResult.endpointsExhausted, 3,
       some (serverErrorMsg 500 "https://cloudcode-pa.googleapis.com")) :=
    attempt_all500 1 0 none hw
  have A2 : runEndpoints jp world 2 CODE_ASSIST_ENDPOINT_FALLBACKS 0 3
      (some (serverErrorMsg 500 "https://cloudcode-pa.googleapis.com")) =
      ([EngineStep.request 2 0, EngineStep.request 2 1, EngineStep.request 2 2],
       AttemptResult.endpointsExhausted, 6,
       some (serverErrorMsg 500 "https://cloudcode-pa.googleapis.com")) :=
    attempt_all500 2 3 _ hw
  have A3 : runEndpoints jp world 3 CODE_ASSIST_ENDPOINT_FALLBACKS 0 6
      (some (serverErrorMsg 500 "https://cloudcode-pa.googleapis.com")) =
      ([EngineStep.request 3 0, EngineStep.request 3 1, EngineStep.request 3 2],
       AttemptResult.endpointsExhausted, 9,
       some (serverErrorMsg 500 "https://cloudcode-pa.googleapis.com")) :=
    attempt_all500 3 6 _ hw
  have L1 : runLoop ⟨tokenO, world, jp⟩ 3 0 0 none =
      ([EngineStep.request 1 0, EngineStep.request 1 1, EngineStep.request 1 2] ++
         (runLoop ⟨tokenO, world, jp⟩ 2 1 3
           (some (serverErrorMsg 500 "https://cloudcode-pa.googleapis.com"))).1,
       (runLoop ⟨tokenO, world, jp⟩ 2 1 3
         (some (serverErrorMsg 500 "https://cloudcode-pa.googleapis.com"))).2) :=
    runLoop_exh ht0 hn0 A1
  have L2 : runLoop ⟨tokenO, world, jp⟩ 2 1 3
      (some (serverErrorMsg 500 "https://cloudcode-pa.googleapis.com")) =
      ([EngineStep.request 2 0, EngineStep.request 2 1, EngineStep.request 2 2] ++
         (runLoop ⟨tokenO, world, jp⟩ 1 2 6
           (some (serverErrorMsg 500 "https://cloudcode-pa.googleapis.com"))).1,
       (runLoop ⟨tokenO, world, jp⟩ 1 2 6
         (some (serverErrorMsg 500 "https://cloudcode-pa.googleapis.com"))).2) :=
    runLoop_exh ht1 hn1 A2
  have L3 : runLoop ⟨tokenO, world, jp⟩ 1 2 6
      (some (serverErrorMsg 500 "https://cloudcode-pa.googleapis.com")) =
      ([EngineStep.request 3 0, EngineStep.request 3 1, EngineStep.request 3 2] ++
         (runLoop ⟨tokenO, world, jp⟩ 0 3 9
           (some (serverErrorMsg 500 "https://cloudcode-pa.googleapis.com"))).1,
       (runLoop ⟨tokenO, world, jp⟩ 0 3 9
         (some (serverErrorMsg 500 "https://cloudcode-pa.googleapis.com"))).2) :=
    runLoop_exh ht2 hn2 A3
  have L4 : runLoop ⟨tokenO, world, jp⟩ 0 3 9
      (some (serverErrorMsg 500 "https://cloudcode-pa.googleapis.com")) =
      ([], Outcome.raisedExhausted
        (some (serverErrorMsg 500 "https://cloudcode-pa.googleapis.com"))) := rfl
  constructor
  · show runLoop ⟨tokenO, world, jp⟩ 3 0 0 none = _
    rw [L1, L2, L3, L4]
    rfl
  · rfl

/-- Claim C4 witness: the exhaustion run at a concrete all-500 world. -/
theorem c4_witness :
    streamGenerate ⟨goodTok, world500, jpW⟩ 1 =
      ([EngineStep.request 1 0, EngineStep.request 1 1, EngineStep.request 1 2,
        EngineStep.request 2 0, EngineStep.request 2 1, EngineStep.request 2 2,
        EngineStep.request 3 0, EngineStep.request 3 1, EngineStep.request 3 2],
       Outcome.raisedExhausted
         (some (serverErrorMsg 500 "https://cloudcode-pa.googleapis.com"))) :=
  (c4_theorem goodTok world500 jpW
    (fun _ => ⟨"tok", "proj", rfl, by decide⟩)
    (fun _ => ⟨none, [], rfl⟩)).1

/-! ## Claim C5 -/

/-- Claim C5: for a pool state whose cursor is in range with current
account a, get_valid_token refreshes exactly when the check-time clock has
reached expires minus the 60-second margin: below it, no refresh call is
made (count 0) and the stored token is returned with the state untouched;
at or past it, exactly one refresh call is made; and on refresh success the
account's access/expires fields are updated in place, the pool is persisted
(refreshedState), the new token is returned, and a subsequent call before
the new expiry margin makes no further refresh call and returns the new
token. -/
theorem c5_theorem (s : ManagerState) (a : Account)
    (h0 : 0 ≤ s.activeIndex) (h1 : s.activeIndex < (s.accounts.length : Int))
    (ha : pyListGet s.accounts s.activeIndex = some a) :
    (∀ (nowCheck nowUpd : Int) (refreshO : String → Option (String × Int)),
        nowCheck < a.expires - 60 →
        get_valid_token nowCheck nowUpd refreshO s =
          (s, some (a.access, a.projectId), 0))
    ∧ (∀ (nowCheck nowUpd : Int) (refreshO : String → Option (String × Int)),
        a.expires - 60 ≤ nowCheck →
        (get_valid_token nowCheck nowUpd refreshO s).2.2 = 1)
    ∧ (∀ (nowCheck nowUpd : Int) (refreshO : String → Option (String × Int))
        (newAccess : String) (expiresIn : Int),
        a.expires - 60 ≤ nowCheck →
        refreshO a.refreshToken = some (newAccess, expiresIn) →
        get_valid_token nowCheck nowUpd refreshO s =
          (refreshedState s a newAccess (nowUpd + expiresIn),
           some (newAccess, a.projectId), 1)
        ∧ (refreshedState s a newAccess (nowUpd + expiresIn)).file =
            ((refreshedState s a newAccess (nowUpd + expiresIn)).accounts,
              s.activeIndex) :: s.file
        ∧ (∀ n2 n2u : Int, n2 < nowUpd + expiresIn - 60 →
            get_valid_token n2 n2u refreshO
                (refreshedState s a newAccess (nowUpd + expiresIn)) =
              (refreshedState s a newAccess (nowUpd + expiresIn),
               some (newAccess, a.projectId), 0))) := by
  refine ⟨?_, ?_, ?_⟩
  · intro nowCheck nowUpd refreshO hlt
    exact gvt_fresh h0 h1 ha (by omega)
  · intro nowCheck nowUpd refreshO hdue
    cases hro : refreshO a.refreshToken with
    | none => rw [gvt_fail h0 h1 ha hdue hro]
    | some v =>
        obtain ⟨na, ei⟩ := v
        rw [gvt_refresh h0 h1 ha hdue hro]
  · intro nowCheck nowUpd refreshO newAccess expiresIn hdue hro
    refine ⟨gvt_refresh h0 h1 ha hdue hro, rfl, ?_⟩
    intro n2 n2u hlt
    have h0' : 0 ≤ (refreshedState s a newAccess (nowUpd + expiresIn)).activeIndex := h0
    have h1' : (refreshedState s a newAccess (nowUpd + expiresIn)).activeIndex <
        (((refreshedState s a newAccess (nowUpd + expiresIn)).accounts.length : Nat) : Int) := by
      show s.activeIndex < ((pyListSet s.accounts s.activeIndex _).length : Int)
      rw [pyListSet_length]
      exact h1
    have ha' : pyListGet (refreshedState s a newAccess (nowUpd + expiresIn)).accounts
        (refreshedState s a newAccess (nowUpd + expiresIn)).activeIndex =
        some { a with access := newAccess, expires := nowUpd + expiresIn } :=
      pyGetSet_self s.accounts s.activeIndex _ h0 h1
    exact gvt_fresh h0' h1' ha' (by
      show ¬ nowUpd + expiresIn - 60 ≤ n2
      omega)

/-- Claim C5 witness: at the concrete one-account pool, an expired token is
refreshed once, the state is updated and persisted, and the new token is
returned. -/
theorem c5_witness :
    get_valid_token 2000 2001 (fun _ => some ("na", 3600)) poolW =
      (refreshedState poolW accW "na" (2001 + 3600), some ("na", accW.projectId), 1) :=
  ((c5_theorem poolW accW (by decide) (by decide) rfl).2.2
    2000 2001 (fun _ => some ("na", 3600)) "na" 3600 (by decide) rfl).1

/-! ## Claim C6 -/

/-- Claim C6: when the refresh call for the current account fails, get_valid_token
returns the Unavailable sentinel (none) and leaves the pool state entirely
unchanged — accounts, cursor and backing file are exactly those of the input
state, so nothing is persisted and no rotation happens; the one refresh call
that failed is the only side effect attempted. -/
theorem c6_theorem (s : ManagerState) (a : Account)
    (h0 : 0 ≤ s.activeIndex) (h1 : s.activeIndex < (s.accounts.length : Int))
    (ha : pyListGet s.accounts s.activeIndex = some a)
    (nowCheck nowUpd : Int) (refreshO : String → Option (String × Int))
    (hdue : a.expires - 60 ≤ nowCheck) (hro : refreshO a.refreshToken = none) :
    get_valid_token nowCheck nowUpd refreshO s = (s, none, 1) :=
  gvt_fail h0 h1 ha hdue hro

/-- Claim C6 witness: the failure path at the concrete one-account pool. -/
theorem c6_witness :
    get_valid_token 2000 2000 (fun _ => none) poolW = (poolW, none, 1) :=
  c6_theorem poolW accW (by decide) (by decide) rfl 2000 2000 (fun _ => none)
    (by decide) rfl

/-! ## Claim C7 -/

/-- Claim C7 (code bug): when get_valid_token returns None (here: the
current account is expired and the refresh call fails), the engine does
stop immediately — no request step is issued, the trace is empty and the
remaining budget is abandoned — but the exception actually raised is the
TypeError from unpacking None at client.py line 83 (raisedUnpack), not the
dedicated NoValidCredential error of line 86 (raisedNoToken), which is
unreachable for a None return. -/
theorem c7_theorem :
    get_valid_token 2000 2000 (fun _ => none) poolW = (poolW, none, 1)
    ∧ streamGenerate ⟨fun _ => none, world500, jpW⟩ 1 = ([], Outcome.raisedUnpack)
    ∧ Outcome.raisedUnpack ≠ Outcome.raisedNoToken :=
  ⟨rfl, rfl, fun h => Outcome.noConfusion h⟩

/-! ## Claim C8 -/

/-- Claim C8 counterexample: loading a backing file with one account and
activeIndex 5 does not clamp the cursor at load time — the loaded state
still carries cursor 5, not 0. -/
theorem c8_counterexample :
    (loadState (LoadSrc.good [accW] 5)).activeIndex = 5 ∧ (5 : Int) ≠ 0 :=
  ⟨rfl, by decide⟩

/-- Claim C8 (amended): loading a backing file whose activeIndex is at or
beyond the account count stores the raw cursor unchanged; the clamp to 0
happens lazily inside get_current_account before any list access, so no
operation ever indexes out of range: the first read returns the account at
index 0 of the non-empty pool, rotation lands the cursor back in
[0, length), and any get_valid_token call leaves the cursor at the clamped
value 0. -/
theorem c8_theorem (accs : List Account) (idx : Int)
    (hne : accs ≠ []) (hidx : (accs.length : Int) ≤ idx) :
    (loadState (LoadSrc.good accs idx)).activeIndex = idx
    ∧ (∃ a, pyListGet accs 0 = some a
        ∧ get_current_account (loadState (LoadSrc.good accs idx)) = (⟨accs, 0, []⟩, some a))
    ∧ 0 < accs.length
    ∧ 0 ≤ (rotate_account (loadState (LoadSrc.good accs idx))).activeIndex
    ∧ (rotate_account (loadState (LoadSrc.good accs idx))).activeIndex < (accs.length : Int)
    ∧ (∀ (nowCheck nowUpd : Int) (refreshO : String → Option (String × Int)),
        (get_valid_token nowCheck nowUpd refreshO
          (loadState (LoadSrc.good accs idx))).1.activeIndex = 0) := by
  obtain ⟨a0, t, rfl⟩ : ∃ a0 t, accs = a0 :: t := by
    cases accs with
    | nil => exact absurd rfl hne
    | cons x xs => exact ⟨x, xs, rfl⟩
  have hlen : 0 < (a0 :: t).length := by simp
  have ha0 : pyListGet (a0 :: t) 0 = some a0 := rfl
  have hcur : get_current_account (loadState (LoadSrc.good (a0 :: t) idx)) =
      (⟨a0 :: t, 0, []⟩, some a0) := by
    show get_current_account ⟨a0 :: t, idx, []⟩ = _
    unfold get_current_account
    rw [if_neg (by simp), if_pos hidx]
    rfl
  refine ⟨rfl, ⟨a0, ha0, hcur⟩, hlen, ?_, ?_, ?_⟩
  · show 0 ≤ (rotate_account ⟨a0 :: t, idx, []⟩).activeIndex
    unfold rotate_account
    rw [if_neg (by simp)]
    show 0 ≤ (idx + 1) % (((a0 :: t).length : Nat) : Int)
    apply Int.emod_nonneg
    omega
  · show (rotate_account ⟨a0 :: t, idx, []⟩).activeIndex < ((a0 :: t).length : Int)
    unfold rotate_account
    rw [if_neg (by simp)]
    exact Int.emod_lt_of_pos _ (by exact_mod_cast hlen)
  · intro nowCheck nowUpd refreshO
    simp only [get_valid_token, hcur]
    split
    · cases hro : refreshO a0.refreshToken with
      | none => rfl
      | some v =>
          obtain ⟨na, ei⟩ := v
          simp [hro, saveState]
    · rfl

/-- Claim C8 witness: the amended behaviour at the concrete stale file. -/
theorem c8_witness :
    (loadState (LoadSrc.good [accW] 5)).activeIndex = 5 :=
  (c8_theorem [accW] 5 (by simp) (by decide)).1

/-! ## Claim C9 -/

/-- Claim C9: the state token round-trips — for any payload whose
serializer and deserializer invert each other (the json.dumps/json.loads
contract) and whose serialized form is a byte list, decoding the encoded
token restores the payload exactly: encode_state strips the base64 '='
padding and decode_state restores it before decoding. -/
theorem c9_theorem {α : Type} (dumps : α → List Nat) (loads : List Nat → Option α)
    (p : α) (hrt : ∀ x, loads (dumps x) = some x) (hbytes : ∀ b ∈ dumps p, b < 256) :
    decode_state loads (encode_state dumps p) = some p := by
  simp only [decode_state, encode_state, b64_strip_restore,
    b64_decode_encode _ hbytes, hrt]

/-- Claim C9 witness: the round trip at a concrete three-byte payload with
the identity serializer. -/
theorem c9_witness :
    decode_state (fun bs => some bs) (encode_state (fun bs : List Nat => bs) [72, 105, 33]) =
      some [72, 105, 33] :=
  c9_theorem (fun bs => bs) (fun bs => some bs) [72, 105, 33] (fun _ => rfl) (by decide)

/-! ## Claim C10 -/

/-- Claim C10: with the fixed fallback list, endpoint A answering 500 and
endpoint B a 2xx stream of exactly two text events, the engine walks past A
to B, emits exactly the two increments in order and finishes — endpoint C
is never contacted and no further attempt occurs, as the trace equality
shows. -/
theorem c10_theorem (tokenO : Nat → Option (String × String)) (world : Nat → HttpResult)
    (jp : List Char → Option Json) (t pj : String) (l1 l2 : List Char) (v1 v2 : Json)
    (h0s h1s : Option (List Char)) (b0 : List StreamEvent)
    (ht : tokenO 0 = some (t, pj)) (hne : t ≠ "")
    (hw0 : world 0 = HttpResult.response 500 h0s b0)
    (hw1 : world 1 = HttpResult.response 200 h1s [StreamEvent.line l1, StreamEvent.line l2])
    (hl1 : processLine jp l1 = some v1) (hl2 : processLine jp l2 = some v2) :
    streamGenerate ⟨tokenO, world, jp⟩ 1 =
      ([EngineStep.request 1 0, EngineStep.request 1 1,
        EngineStep.emit v1, EngineStep.emit v2], Outcome.finished) := by
  have hpb : processBody jp [StreamEvent.line l1, StreamEvent.line l2] = ([v1, v2], none) := by
    simp [processBody, hl1, hl2]
  have s1 : runEndpoints jp world 1
      ("https://daily-cloudcode-pa.sandbox.googleapis.com" ::
       "https://autopush-cloudcode-pa.sandbox.googleapis.com" ::
       "https://cloudcode-pa.googleapis.com" :: []) 0 0 none =
      (EngineStep.request 1 0 ::
         (runEndpoints jp world 1
           ("https://autopush-cloudcode-pa.sandbox.googleapis.com" ::
            "https://cloudcode-pa.googleapis.com" :: []) 1 1
           (some (serverErrorMsg 500 "https://daily-cloudcode-pa.sandbox.googleapis.com"))).1,
       (runEndpoints jp world 1
           ("https://autopush-cloudcode-pa.sandbox.googleapis.com" ::
            "https://cloudcode-pa.googleapis.com" :: []) 1 1
           (some (serverErrorMsg 500 "https://daily-cloudcode-pa.sandbox.googleapis.com"))).2) :=
    runEndpoints_server hw0 (by omega)
  have s2 : runEndpoints jp world 1
      ("https://autopush-cloudcode-pa.sandbox.googleapis.com" ::
       "https://cloudcode-pa.googleapis.com" :: []) 1 1
      (some (serverErrorMsg 500 "https://daily-cloudcode-pa.sandbox.googleapis.com")) =
      (EngineStep.request 1 1 :: [EngineStep.emit v1, EngineStep.emit v2],
       AttemptResult.success, 2,
       some (serverErrorMsg 500 "https://daily-cloudcode-pa.sandbox.googleapis.com")) :=
    runEndpoints_2xx_ok hw1 (by omega) hpb
  have A1 : runEndpoints jp world 1 CODE_ASSIST_ENDPOINT_FALLBACKS 0 0 none =
      ([EngineStep.request 1 0, EngineStep.request 1 1,
        EngineStep.emit v1, EngineStep.emit v2],
       AttemptResult.success, 2,
       some (serverErrorMsg 500 "https://daily-cloudcode-pa.sandbox.googleapis.com")) := by
    show runEndpoints jp world 1
      ("https://daily-cloudcode-pa.sandbox.googleapis.com" ::
       "https://autopush-cloudcode-pa.sandbox.googleapis.com" ::
       "https://cloudcode-pa.googleapis.com" :: []) 0 0 none = _
    rw [s1, s2]
  show runLoop ⟨tokenO, world, jp⟩ 3 0 0 none = _
  exact runLoop_success ht hne A1

/-- Claim C10 witness: the two-event run at the concrete scenario. -/
theorem c10_witness :
    streamGenerate ⟨goodTok, worldC10, jpW⟩ 1 =
      ([EngineStep.request 1 0, EngineStep.request 1 1,
        EngineStep.emit (Json.str "He"), EngineStep.emit (Json.str "llo")],
       Outcome.finished) :=
  c10_theorem goodTok worldC10 jpW "tok" "proj" lineE1 lineE2
    (Json.str "He") (Json.str "llo") none none [] rfl (by decide) rfl rfl rfl rfl
